import Mathlib

/-!
Verification of the Payment Lifecycle Engine of the Earnton repository.

The definitions below are a shallow embedding of the Python source:

* `check_payment_status`, `create_payment_address`, `create_advertisement`
  and `check_suspicious_activity` embed the methods of `TONPayment` in
  `ton_payments.py` (for `create_payment_address`, the second definition at
  lines 304-366, which shadows the earlier guard-checking definition at
  lines 192-264, is the one Python actually binds to the name).
* `check_rate_limit` embeds `SecurityManager.check_rate_limit` from
  `security.py`; `checks_check_rate_limit` embeds
  `SecurityChecks.check_rate_limit` from `security_checks.py`.
* `detect_behavior_anomaly` embeds
  `SecurityMiddleware._detect_behavior_anomaly` from `security_middleware.py`.

Python float timestamps and amounts are modelled as integers in fixed
units chosen so that every constant of the source is integral: amounts in
milliTON (`MIN_PAYMENT_AMOUNT = 0.1 TON = 100`), timestamps of
`ton_payments.py` and `security.py` in seconds, and timestamps of
`security_middleware.py` in milliseconds (its "too fast to be human"
floor, 0.1 s, becomes 100).  SQLite tables are lists of rows and the
external TON ledger is a function argument.  Fallible operations return an
explicit result inductive.  Database writes that the Python code commits
are applied to the list; the one write the code issues without a commit
(the row-initializing INSERT of `SecurityManager.check_rate_limit`, whose
branch returns before any `conn.commit()`, so Python sqlite3 rolls it back
when the connection is closed in the `finally` block) is dropped,
mirroring the rollback.
-/

/-- Error taxonomy of the embedded operations: `notFound` models the
`ValueError("Payment not found")`, `notConfirmed` the
`ValueError("Payment not confirmed")`, `invalidAmount` the
`ValueError` on a too-small amount, and `ledgerError` the generic
exception raised on a non-200 response from the TON API. -/
inductive PayError where
  | notFound
  | notConfirmed
  | invalidAmount
  | ledgerError
deriving Repr, DecidableEq

/-- Fallible result of an embedded operation (the Python code raises
exceptions; we return them explicitly). -/
inductive PResult (α : Type) where
  | ok (val : α)
  | error (e : PayError)
deriving Repr, DecidableEq

/-- A row of the `payments` table of `ton_payments.py`; amounts are in
milliTON, timestamps in seconds. -/
structure Payment where
  id : ℕ
  user_id : ℕ
  amount : ℤ
  status : String
  payment_address : String
  created_at : ℤ
  expires_at : ℤ
deriving Repr, DecidableEq

/-- A row of the `advertisements` table of `ton_payments.py`
(only the columns the INSERT in `create_advertisement` fills). -/
structure Advertisement where
  id : ℕ
  user_id : ℕ
  payment_id : ℕ
  title : String
  description : String
  media_url : String
  status : String
deriving Repr, DecidableEq

/-- Constant `MIN_PAYMENT_AMOUNT = 0.1` TON from `ton_payments.py`, in milliTON. -/
def MIN_PAYMENT_AMOUNT : ℤ := 100

/-- Constant `PAYMENT_TIMEOUT = 300` (seconds) from `ton_payments.py`. -/
def PAYMENT_TIMEOUT : ℤ := 300

/-- Constant `RATE_LIMIT_WINDOW = 3600` (seconds) from `ton_payments.py`. -/
def RATE_LIMIT_WINDOW : ℤ := 3600

/-- SQL `UPDATE payments SET status = s WHERE id = pid`. -/
def setStatus (db : List Payment) (pid : ℕ) (s : String) : List Payment :=
  db.map fun p => if p.id = pid then { p with status := s } else p

/-- SQL `UPDATE payments SET payment_address = a WHERE id = pid`. -/
def setAddr (db : List Payment) (pid : ℕ) (a : String) : List Payment :=
  db.map fun p => if p.id = pid then { p with payment_address := a } else p

/-- SQL `SELECT * FROM payments WHERE id = ?` followed by `fetchone`. -/
def findPayment (db : List Payment) (pid : ℕ) : Option Payment :=
  db.find? fun p => p.id == pid

/-- Value of `cursor.lastrowid` for an AUTOINCREMENT insert: one past the largest
row id present. -/
def nextId (db : List Payment) : ℕ :=
  (db.map fun p => p.id).foldl max 0 + 1

/-- Result of `check_payment_status`: the returned `payment_data`
dictionary (or the raised error), the table after the call, and whether
the TON API was queried (`self.session.get` on `/getPaymentStatus`). -/
structure CheckResult where
  out : PResult Payment
  db : List Payment
  ledgerCalled : Bool
deriving Repr, DecidableEq

/-- Embedding of `TONPayment.check_payment_status` (ton_payments.py,
lines 368-423).  `ledger` maps an address to `some status` for a 200
response with that JSON status field, `none` for a failed request. -/
def check_payment_status (ledger : String → Option String) (now : ℤ)
    (db : List Payment) (pid : ℕ) : CheckResult :=
  match findPayment db pid with
  | none => ⟨.error .notFound, db, false⟩
  | some p =>
    if p.expires_at < now then
      if p.status = "pending" then
        ⟨.ok { p with status := "expired" }, setStatus db pid "expired", false⟩
      else
        ⟨.ok p, db, false⟩
    else
      match ledger p.payment_address with
      | none => ⟨.error .ledgerError, db, true⟩
      | some s =>
        if s = "confirmed" then
          ⟨.ok { p with status := "confirmed" }, setStatus db pid "confirmed", true⟩
        else
          ⟨.ok p, db, true⟩

/-- The dictionary returned by a successful `create_payment_address`. -/
structure CreateOk where
  payment_id : ℕ
  amount : ℤ
  address : String
  expires_at : ℤ
deriving Repr, DecidableEq

/-- Result of `create_payment_address`: the returned dictionary or raised
error, the table after the call, and the sequence of committed table
states (`conn.commit()` runs after the INSERT and, on ledger success,
again after the address UPDATE). -/
structure CreateResult where
  out : PResult CreateOk
  db : List Payment
  commits : List (List Payment)
deriving Repr, DecidableEq

/-- Embedding of the effective `TONPayment.create_payment_address`
(ton_payments.py, lines 304-366; the second of the two definitions, the
one Python binds).  `alloc` is the ledger response to
`/createPaymentAddress` (`some address` on 200, `none` on failure);
`tmpAddr` is the sha256-derived hash string that the INSERT stores in the
`payment_address` column before the ledger is consulted.  Note: this
definition performs no rate-limit or suspicious-activity check. -/
def create_payment_address (alloc : Option String) (now : ℤ)
    (db : List Payment) (user_id : ℕ) (amount : ℤ) (tmpAddr : String) :
    CreateResult :=
  if amount < MIN_PAYMENT_AMOUNT then
    ⟨.error .invalidAmount, db, []⟩
  else
    let pid := nextId db
    let row : Payment :=
      ⟨pid, user_id, amount, "pending", tmpAddr, now, now + PAYMENT_TIMEOUT⟩
    let db1 := db ++ [row]
    match alloc with
    | none => ⟨.error .ledgerError, db1, [db1]⟩
    | some addr =>
      ⟨.ok ⟨pid, amount, addr, now + PAYMENT_TIMEOUT⟩,
       setAddr db1 pid addr, [db1, setAddr db1 pid addr]⟩

/-- Value of `cursor.lastrowid` for the advertisements table. -/
def nextAdId (ads : List Advertisement) : ℕ :=
  (ads.map fun a => a.id).foldl max 0 + 1

/-- Result of `create_advertisement`: the new row id or raised error,
plus the payments table (possibly mutated by the inner status check) and
the advertisements table after the call. -/
structure AdResult where
  out : PResult ℕ
  db : List Payment
  ads : List Advertisement
deriving Repr, DecidableEq

/-- Embedding of `TONPayment.create_advertisement` (ton_payments.py,
lines 425-456): it calls `check_payment_status`, raises
`ValueError("Payment not confirmed")` unless the reported status is
`confirmed`, and otherwise inserts a new advertisement row referencing
`payment_id`. -/
def create_advertisement (ledger : String → Option String) (now : ℤ)
    (db : List Payment) (ads : List Advertisement) (user_id pid : ℕ)
    (title description media_url : String) : AdResult :=
  let c := check_payment_status ledger now db pid
  match c.out with
  | .error e => ⟨.error e, c.db, ads⟩
  | .ok data =>
    if data.status = "confirmed" then
      ⟨.ok (nextAdId ads), c.db,
       ads ++ [⟨nextAdId ads, user_id, pid, title, description, media_url, "active"⟩]⟩
    else
      ⟨.error .notConfirmed, c.db, ads⟩

/-- Lookup in a Python `defaultdict(int)`: a missing key reads as `0`.
(The Python access also inserts the missing key with value `0`; since a
stored `0` and an absent key are observationally equal, the insertion is
not modelled.) -/
def lookup0 : List (ℕ × ℕ) → ℕ → ℕ
  | [], _ => 0
  | e :: rest, k => if e.1 = k then e.2 else lookup0 rest k

/-- Assignment `d[k] = v` on a Python dict modelled as an association
list: the first binding of `k` is replaced, or the binding is appended. -/
def setTbl : List (ℕ × ℕ) → ℕ → ℕ → List (ℕ × ℕ)
  | [], k, v => [(k, v)]
  | e :: rest, k, v => if e.1 = k then (k, v) :: rest else e :: setTbl rest k v

/-- The module-level guard state of `ton_payments.py`: the
`rate_limits` and `failed_attempts` defaultdicts (user id to counter). -/
structure GuardState where
  rate_limits : List (ℕ × ℕ)
  failed_attempts : List (ℕ × ℕ)
deriving Repr, DecidableEq

/-- Embedding of `TONPayment.check_suspicious_activity` (ton_payments.py,
lines 173-190).  `maxReq` is `MAX_REQUESTS_PER_MINUTE` (not defined in
ton_payments.py itself; `bot.py` sets it to 60) and `maxFailed` is
`MAX_FAILED_ATTEMPTS = 3`; both are taken as parameters.  `currentTime`
is `time.time()` in seconds.  Returns the flag and the guard state after
the call: when the actor is not flagged and
`current_time - rate_limits[user_id] > RATE_LIMIT_WINDOW`, both of the
actor counters are reset to `0`. -/
def check_suspicious_activity (maxReq maxFailed : ℕ) (currentTime : ℤ)
    (st : GuardState) (user_id : ℕ) : Bool × GuardState :=
  if lookup0 st.rate_limits user_id > maxReq then
    (true, st)
  else if lookup0 st.failed_attempts user_id > maxFailed then
    (true, st)
  else if currentTime - (lookup0 st.rate_limits user_id : ℤ) > RATE_LIMIT_WINDOW then
    (false,
     ⟨setTbl st.rate_limits user_id 0, setTbl st.failed_attempts user_id 0⟩)
  else
    (false, st)

/-- A row of the `rate_limits` table of `security.py` (the unused
`last_request` column is omitted). -/
structure RateRow where
  request_count : ℕ
  last_reset : ℤ
deriving Repr, DecidableEq

/-- The `rate_limits` table of `security.py`, keyed by `user_id`. -/
abbrev RateTable : Type := List (ℕ × RateRow)

/-- Lookup of the rate-limit row of a user. -/
def findRate (tbl : RateTable) (uid : ℕ) : Option RateRow :=
  ((tbl.find? fun e => e.1 == uid).map fun e => e.2)

/-- SQL `UPDATE rate_limits SET ... WHERE user_id = uid`. -/
def setRate (tbl : RateTable) (uid : ℕ) (row : RateRow) : RateTable :=
  tbl.map fun e => if e.1 = uid then (uid, row) else e

/-- Embedding of `SecurityManager.check_rate_limit` (security.py, lines
73-127).  The branch for an unseen user executes
`INSERT INTO rate_limits (user_id, last_reset) VALUES (?, CURRENT_TIMESTAMP)`
and returns `True` without ever reaching a `conn.commit()`; the
connection is then closed in the `finally` block, and Python sqlite3
rolls the uncommitted INSERT back, so the table is returned unchanged.
The other two writing branches do commit. -/
def check_rate_limit (limit : ℕ) (period : ℤ) (now : ℤ)
    (tbl : RateTable) (uid : ℕ) : Bool × RateTable :=
  match findRate tbl uid with
  | none => (true, tbl)
  | some row =>
    if now - row.last_reset > period then
      (true, setRate tbl uid ⟨1, now⟩)
    else if row.request_count ≥ limit then
      (false, tbl)
    else
      (true, setRate tbl uid ⟨row.request_count + 1, row.last_reset⟩)

/-- Runs `n` consecutive calls to `check_rate_limit` by the same user at the
same timestamp, threading the table; returns the list of results and the
final table. -/
def allowRuns (limit : ℕ) (period : ℤ) (now : ℤ) (uid : ℕ) :
    ℕ → RateTable → List Bool × RateTable
  | 0, tbl => ([], tbl)
  | n + 1, tbl =>
    let r := check_rate_limit limit period now tbl uid
    let rest := allowRuns limit period now uid n r.2
    (r.1 :: rest.1, rest.2)

/-- Embedding of `SecurityChecks.check_rate_limit` (security_checks.py,
lines 134-155): a pure read that counts the rows of `failed_attempts`
for this user and attempt type whose timestamp lies within the trailing
`period`, and allows while that count is below `limit`.  `attempts` is
the list of recorded timestamps for the `(user, attempt_type)` pair.
Nothing is recorded by this check itself. -/
def checks_check_rate_limit (limit : ℕ) (period : ℤ) (now : ℤ)
    (attempts : List ℤ) : Bool :=
  (attempts.filter fun t => now - period ≤ t).length < limit

/-- Consecutive inter-arrival differences of a timestamp list
(`time_diffs` in `_detect_behavior_anomaly`). -/
def diffs : List ℤ → List ℤ
  | a :: b :: rest => (b - a) :: diffs (b :: rest)
  | _ => []

/-- Embedding of `SecurityMiddleware._detect_behavior_anomaly`
(security_middleware.py, lines 287-311).  `times` is the list of the
recorded request timestamps of the user (the keys of
`self.requests["user"][user_id]`, in insertion and hence chronological
order), in milliseconds, so that the "less than 100 ms between requests"
floor is the integer `100` and the "more than 1 hour difference" ceiling
is `3600000`.  With fewer than two samples the check returns `False`;
otherwise it flags when the minimum gap is below the floor or the spread
between the maximum and minimum gaps exceeds the ceiling.  (The computed
`avg_diff` of the source is unused and omitted.) -/
def detect_behavior_anomaly (times : List ℤ) : Bool :=
  match times with
  | a :: b :: rest =>
    let ds := diffs (b :: rest)
    let mn := ds.foldl min (b - a)
    let mx := ds.foldl max (b - a)
    if mn < 100 then true
    else if mx - mn > 3600000 then true
    else false
  | _ => false

/-- The payments table after `n` consecutive `check_payment_status` calls
for the same id at the same time, threading the table through. -/
def checkRunsDb (ledger : String → Option String) (now : ℤ) (pid : ℕ) :
    ℕ → List Payment → List Payment
  | 0, db => db
  | n + 1, db => checkRunsDb ledger now pid n (check_payment_status ledger now db pid).db

/-- The initial accumulator is below a `foldl max`. -/
theorem le_foldl_max (l : List ℕ) (a : ℕ) : a ≤ l.foldl max a := by
  induction l generalizing a with
  | nil => exact Nat.le_refl a
  | cons b t ih => exact Nat.le_trans (Nat.le_max_left a b) (ih (max a b))

/-- Every member of a list is below its `foldl max`. -/
theorem mem_le_foldl_max {l : List ℕ} {x : ℕ} (a : ℕ) (hx : x ∈ l) :
    x ≤ l.foldl max a := by
  induction l generalizing a with
  | nil => cases hx
  | cons b t ih =>
    rcases List.mem_cons.mp hx with h | h
    · subst h
      exact Nat.le_trans (Nat.le_max_right a x) (le_foldl_max t (max a x))
    · exact ih (max a b) h

/-- Freshness of AUTOINCREMENT ids: every row of the table has an id
strictly below `nextId`. -/
theorem id_lt_nextId {db : List Payment} {p : Payment} (hp : p ∈ db) :
    p.id < nextId db := by
  have h1 : p.id ∈ db.map fun q => q.id := List.mem_map_of_mem _ hp
  exact Nat.lt_succ_of_le (mem_le_foldl_max 0 h1)

/-- An address UPDATE keyed on an id that no row carries is a no-op. -/
theorem setAddr_of_not_mem (db : List Payment) (n : ℕ) (a : String)
    (h : ∀ p ∈ db, p.id ≠ n) : setAddr db n a = db := by
  induction db with
  | nil => rfl
  | cons q t ih =>
    have hq : q.id ≠ n := h q (List.mem_cons_self q t)
    have ht : ∀ p ∈ t, p.id ≠ n := fun p hp => h p (List.mem_cons_of_mem q hp)
    simp only [setAddr, List.map_cons] at ih ⊢
    rw [if_neg hq, ih ht]

/-- The update `setAddr` distributes over append. -/
theorem setAddr_append (db l : List Payment) (n : ℕ) (a : String) :
    setAddr (db ++ l) n a = setAddr db n a ++ setAddr l n a := by
  simp [setAddr, List.map_append]

/-- Updating the address of a freshly inserted row rewrites exactly that
row. -/
theorem setAddr_insert (db : List Payment) (row : Payment) (a : String)
    (hrow : row.id = nextId db) :
    setAddr (db ++ [row]) (nextId db) a =
      db ++ [{ row with payment_address := a }] := by
  rw [setAddr_append,
    setAddr_of_not_mem db (nextId db) a
      (fun p hp => Nat.ne_of_lt (id_lt_nextId hp))]
  simp [setAddr, hrow]

/-- Reading back the key just written into a dict. -/
theorem lookup0_setTbl (t : List (ℕ × ℕ)) (k v : ℕ) :
    lookup0 (setTbl t k v) k = v := by
  induction t with
  | nil => simp [setTbl, lookup0]
  | cons e rest ih =>
    by_cases h : e.1 = k
    · simp [setTbl, h, lookup0]
    · simp [setTbl, h, lookup0, ih]

/-- Claim C5: lazy expiry — for every payment request stored as
`pending` whose `expires_at` lies strictly in the past,
`check_payment_status` transitions the row to `expired` and returns
`expired` without calling the Ledger Client. -/
theorem C5_lazy_expiry (ledger : String → Option String) (now : ℤ)
    (db : List Payment) (pid : ℕ) (p : Payment)
    (hfind : findPayment db pid = some p)
    (hpend : p.status = "pending")
    (hexp : p.expires_at < now) :
    check_payment_status ledger now db pid =
      ⟨.ok { p with status := "expired" }, setStatus db pid "expired", false⟩ := by
  unfold check_payment_status
  rw [hfind]
  simp [hexp, hpend]

/-- Witness for C5: a request created at time 0 with a one-second
lifetime (`expires_at = 1`), checked at time 2, comes back `expired`,
with the row updated and the ledger untouched. -/
theorem C5_lazy_expiry_witness :
    check_payment_status (fun _ => some "pending") 2
        [⟨1, 7, 1000, "pending", "addr", 0, 1⟩] 1 =
      ⟨.ok ⟨1, 7, 1000, "expired", "addr", 0, 1⟩,
       [⟨1, 7, 1000, "expired", "addr", 0, 1⟩], false⟩ :=
  C5_lazy_expiry (fun _ => some "pending") 2
    [⟨1, 7, 1000, "pending", "addr", 0, 1⟩] 1
    ⟨1, 7, 1000, "pending", "addr", 0, 1⟩
    (by decide) (by decide) (by decide)

/-- Claim C2, counterexample: a request stored in the terminal state
`failed`, whose `expires_at` (100) is still in the future at `now = 50`,
makes `check_payment_status` query the Ledger Client, return `confirmed`
instead of the stored state, and overwrite the stored row — contradicting
"returns the stored state unchanged, performs no state mutation, and
makes no Ledger Client call" for terminal states. -/
theorem C2_counterexample :
    (let r := check_payment_status (fun _ => some "confirmed") 50
        [⟨1, 7, 1000, "failed", "addr", 0, 100⟩] 1
     r.ledgerCalled = true ∧
       r.out = .ok ⟨1, 7, 1000, "confirmed", "addr", 0, 100⟩ ∧
       r.db = [⟨1, 7, 1000, "confirmed", "addr", 0, 100⟩] ∧
       r.db ≠ [⟨1, 7, 1000, "failed", "addr", 0, 100⟩]) := by
  decide

/-- Claim C2, amended: a request in a terminal stored state
(`confirmed`, `expired` or `failed` — no `consumed` state exists in the
code) is returned idempotently, unchanged and without any Ledger Client
call, only when its `expires_at` is in the past; requests whose
`expires_at` is still in the future trigger a Ledger Client call on every
`check_payment_status`, whatever their stored state. -/
theorem C2_terminal_idempotent_when_expired (ledger : String → Option String)
    (now : ℤ) (db : List Payment) (pid : ℕ) (p : Payment)
    (hfind : findPayment db pid = some p)
    (hstat : p.status ≠ "pending")
    (hexp : p.expires_at < now) :
    check_payment_status ledger now db pid = ⟨.ok p, db, false⟩ := by
  unfold check_payment_status
  rw [hfind]
  simp [hexp, hstat]

/-- Witness for the amended C2: a `confirmed` request past its expiry is
returned as stored, with no mutation and no ledger call. -/
theorem C2_terminal_idempotent_when_expired_witness :
    check_payment_status (fun _ => some "pending") 50
        [⟨1, 7, 1000, "confirmed", "addr", 0, 40⟩] 1 =
      ⟨.ok ⟨1, 7, 1000, "confirmed", "addr", 0, 40⟩,
       [⟨1, 7, 1000, "confirmed", "addr", 0, 40⟩], false⟩ :=
  C2_terminal_idempotent_when_expired (fun _ => some "pending") 50
    [⟨1, 7, 1000, "confirmed", "addr", 0, 40⟩] 1
    ⟨1, 7, 1000, "confirmed", "addr", 0, 40⟩
    (by decide) (by decide) (by decide)

/-- Claim C6, counterexample: with the Ledger Client failing on every
call, four consecutive `check_payment_status` calls (more than the
claimed budget of 3) on a non-expired `pending` request each raise and
leave the stored state `pending`; no transition to `failed` ever
happens. -/
theorem C6_counterexample :
    (check_payment_status (fun _ => none) 10
        [⟨1, 7, 1000, "pending", "addr", 0, 1000⟩] 1).out = .error .ledgerError ∧
    findPayment
        (checkRunsDb (fun _ => none) 10 1 4 [⟨1, 7, 1000, "pending", "addr", 0, 1000⟩]) 1 =
      some ⟨1, 7, 1000, "pending", "addr", 0, 1000⟩ := by
  decide

/-- Claim C6, amended: when the Ledger Client fails during
`check_payment_status` on a non-expired request, the call raises and
leaves the table unchanged (a `pending` request stays `pending`); there
is no retry budget and no transition to `failed`, however many
consecutive failures occur. -/
theorem C6_ledger_failure_keeps_state (ledger : String → Option String)
    (now : ℤ) (db : List Payment) (pid : ℕ) (p : Payment)
    (hfind : findPayment db pid = some p)
    (hexp : ¬ p.expires_at < now)
    (hled : ledger p.payment_address = none) :
    check_payment_status ledger now db pid = ⟨.error .ledgerError, db, true⟩ := by
  unfold check_payment_status
  rw [hfind]
  simp [hexp, hled]

/-- Witness for the amended C6: one failing ledger call on a live
`pending` request raises and leaves the table untouched. -/
theorem C6_ledger_failure_keeps_state_witness :
    check_payment_status (fun _ => none) 10
        [⟨1, 7, 1000, "pending", "addr", 0, 1000⟩] 1 =
      ⟨.error .ledgerError, [⟨1, 7, 1000, "pending", "addr", 0, 1000⟩], true⟩ :=
  C6_ledger_failure_keeps_state (fun _ => none) 10
    [⟨1, 7, 1000, "pending", "addr", 0, 1000⟩] 1
    ⟨1, 7, 1000, "pending", "addr", 0, 1000⟩
    (by decide) (by decide) (by decide)

/-- Claim C1, counterexample: with a payment stored as `confirmed` (and
not expired), a first `create_advertisement` succeeds — and a second call
for the same payment id succeeds as well, leaving two advertisements that
reference payment 1; the claimed single-use consumption does not exist. -/
theorem C1_counterexample :
    (let firstCall := create_advertisement (fun _ => some "confirmed") 50
        [⟨1, 7, 1000, "confirmed", "addr", 0, 100⟩] [] 7 1 "t" "d" "m"
     let secondCall := create_advertisement (fun _ => some "confirmed") 50
        firstCall.db firstCall.ads 7 1 "t" "d" "m"
     firstCall.out = .ok 1 ∧ secondCall.out = .ok 2 ∧
       (secondCall.ads.filter fun a => a.payment_id == 1).length = 2) := by
  decide

/-- Claim C1, amended: `create_advertisement` gates only on
`check_payment_status` reporting `confirmed`; there is no
`Consumed` state and no single-use token, so every call made while the
payment reports `confirmed` succeeds and appends one more advertisement
referencing the same payment id (a second attempt succeeds rather than
failing), and a call fails with the not-confirmed error exactly when the
reported status is anything else. -/
theorem C1_advertisement_gated_on_confirmed_only
    (ledger : String → Option String) (now : ℤ)
    (db : List Payment) (ads : List Advertisement) (uid pid : ℕ)
    (title description media_url : String) (data : Payment)
    (hout : (check_payment_status ledger now db pid).out = .ok data) :
    (data.status = "confirmed" →
      create_advertisement ledger now db ads uid pid title description media_url =
        ⟨.ok (nextAdId ads), (check_payment_status ledger now db pid).db,
         ads ++ [⟨nextAdId ads, uid, pid, title, description, media_url, "active"⟩]⟩) ∧
    (data.status ≠ "confirmed" →
      create_advertisement ledger now db ads uid pid title description media_url =
        ⟨.error .notConfirmed, (check_payment_status ledger now db pid).db, ads⟩) := by
  constructor
  · intro hc
    simp only [create_advertisement]
    rw [hout]
    simp [hc]
  · intro hc
    simp only [create_advertisement]
    rw [hout]
    simp [hc]

/-- Witness for the amended C1: a confirmed payment yields a new
advertisement row referencing it. -/
theorem C1_advertisement_gated_on_confirmed_only_witness :
    create_advertisement (fun _ => some "confirmed") 50
        [⟨1, 7, 1000, "confirmed", "addr", 0, 100⟩] [] 7 1 "t" "d" "m" =
      ⟨.ok 1, [⟨1, 7, 1000, "confirmed", "addr", 0, 100⟩],
       [⟨1, 7, 1, "t", "d", "m", "active"⟩]⟩ :=
  (C1_advertisement_gated_on_confirmed_only (fun _ => some "confirmed") 50
    [⟨1, 7, 1000, "confirmed", "addr", 0, 100⟩] [] 7 1 "t" "d" "m"
    ⟨1, 7, 1000, "confirmed", "addr", 0, 100⟩ (by decide)).1 rfl

/-- Claim C3, counterexample: starting from an empty store, `create`
with a valid amount (1 TON = 1000 milliTON) and a failing ledger raises
the ledger error — but a half-initialized `pending` record, carrying the
placeholder address, has already been committed and persists. -/
theorem C3_counterexample :
    (let r := create_payment_address none 0 [] 7 1000 "tmp"
     r.out = .error .ledgerError ∧
       r.db = [⟨1, 7, 1000, "pending", "tmp", 0, 300⟩] ∧ r.db ≠ []) := by
  decide

/-- Claim C3, amended: when the Ledger Client allocation fails during
`create` with a valid amount, the call raises the ledger error, but the
new `pending` record — inserted and committed before the ledger was
consulted, still carrying the placeholder address — persists in the
store. -/
theorem C3_ledger_failure_leaves_record (now : ℤ) (db : List Payment)
    (uid : ℕ) (amount : ℤ) (tmp : String)
    (hamt : MIN_PAYMENT_AMOUNT ≤ amount) :
    create_payment_address none now db uid amount tmp =
      ⟨.error .ledgerError,
       db ++ [⟨nextId db, uid, amount, "pending", tmp, now, now + PAYMENT_TIMEOUT⟩],
       [db ++ [⟨nextId db, uid, amount, "pending", tmp, now, now + PAYMENT_TIMEOUT⟩]]⟩ := by
  unfold create_payment_address
  rw [if_neg (not_lt.mpr hamt)]

/-- Witness for the amended C3. -/
theorem C3_ledger_failure_leaves_record_witness :
    create_payment_address none 0 [] 7 1000 "tmp" =
      ⟨.error .ledgerError, [⟨1, 7, 1000, "pending", "tmp", 0, 300⟩],
       [[⟨1, 7, 1000, "pending", "tmp", 0, 300⟩]]⟩ :=
  C3_ledger_failure_leaves_record 0 [] 7 1000 "tmp" (by decide)

/-- Claim C4, counterexample: an actor whose guard counters flag it as
suspicious (`check_suspicious_activity` returns `True`) can still create
a payment request: the effective `create_payment_address` consults no
guard, succeeds, and persists the request. -/
theorem C4_counterexample :
    (check_suspicious_activity 60 3 5000 ⟨[(7, 1000)], []⟩ 7).1 = true ∧
    (let r := create_payment_address (some "ADDR") 0 [] 7 1000 "tmp"
     r.out = .ok ⟨1, 1000, "ADDR", 300⟩ ∧
       r.db = [⟨1, 7, 1000, "pending", "ADDR", 0, 300⟩]) := by
  decide

/-- Claim C4, amended: the effective `create_payment_address` (the
second definition in the file, which shadows the earlier one that called
`check_suspicious_activity`) performs no Rate and Abuse Guard check at
all: it succeeds for every amount at or above the minimum whenever the
ledger allocates, irrespective of the actor guard counters, and no
rate-limited failure path exists in it. -/
theorem C4_create_has_no_guard (addr tmp : String) (now : ℤ)
    (db : List Payment) (uid : ℕ) (amount : ℤ)
    (hamt : MIN_PAYMENT_AMOUNT ≤ amount) :
    (create_payment_address (some addr) now db uid amount tmp).out =
      .ok ⟨nextId db, amount, addr, now + PAYMENT_TIMEOUT⟩ := by
  unfold create_payment_address
  rw [if_neg (not_lt.mpr hamt)]

/-- Witness for the amended C4. -/
theorem C4_create_has_no_guard_witness :
    (create_payment_address (some "ADDR") 0 [] 7 1000 "tmp").out =
      .ok ⟨1, 1000, "ADDR", 300⟩ :=
  C4_create_has_no_guard "ADDR" "tmp" 0 [] 7 1000 (by decide)

/-- Claim C8, counterexample: on a successful `create`, the committed
store states show the `payment_address` column of the new request being
written twice with different values — first the placeholder hash `tmp`,
then the ledger address `ADDR` — so the address is not assigned exactly
once and is changed after its first assignment. -/
theorem C8_counterexample :
    (let r := create_payment_address (some "ADDR") 0 [] 7 1000 "tmp"
     (r.commits.map fun c => (findPayment c 1).map fun p => p.payment_address) =
         [some "tmp", some "ADDR"] ∧
       some "tmp" ≠ (some "ADDR" : Option String)) := by
  decide

/-- Claim C8, amended: during `create` the `payment_address` column of
the new request is written twice — the insert commits a placeholder (the
generated hash string), and after a successful ledger allocation the
column is overwritten with the ledger address; the ledger-allocated
address itself is assigned only once, and the request state is `pending`
in both committed states (state leaves `pending` only later, through
`check_payment_status`). -/
theorem C8_address_written_twice (addr tmp : String) (now : ℤ)
    (db : List Payment) (uid : ℕ) (amount : ℤ)
    (hamt : MIN_PAYMENT_AMOUNT ≤ amount) :
    (create_payment_address (some addr) now db uid amount tmp).commits =
      [db ++ [⟨nextId db, uid, amount, "pending", tmp, now, now + PAYMENT_TIMEOUT⟩],
       db ++ [⟨nextId db, uid, amount, "pending", addr, now, now + PAYMENT_TIMEOUT⟩]] := by
  unfold create_payment_address
  rw [if_neg (not_lt.mpr hamt)]
  show [_, setAddr
      (db ++ [⟨nextId db, uid, amount, "pending", tmp, now, now + PAYMENT_TIMEOUT⟩])
      (nextId db) addr] = _
  rw [setAddr_insert db
    ⟨nextId db, uid, amount, "pending", tmp, now, now + PAYMENT_TIMEOUT⟩ addr rfl]

/-- Witness for the amended C8. -/
theorem C8_address_written_twice_witness :
    (create_payment_address (some "ADDR") 0 [] 7 1000 "tmp").commits =
      [[⟨1, 7, 1000, "pending", "tmp", 0, 300⟩],
       [⟨1, 7, 1000, "pending", "ADDR", 0, 300⟩]] :=
  C8_address_written_twice "ADDR" "tmp" 0 [] 7 1000 (by decide)

/-- Claim C7: evidence of the broken rate limiter.  With `limit = 5` and
`period = 60` seconds, six consecutive `SecurityManager.check_rate_limit`
calls by one user, starting from an empty `rate_limits` table, all return
`True` (the claim requires the sixth to fail): the branch that would
initialize the counter row returns before any commit, so its INSERT is
rolled back when the connection closes, the table stays empty, and no
call is ever limited.  `SecurityChecks.check_rate_limit`, which records
nothing itself, likewise allows every call over an empty
`failed_attempts` history. -/
theorem C7_rate_limit_never_blocks :
    allowRuns 5 60 0 1 6 [] = ([true, true, true, true, true, true], []) ∧
    checks_check_rate_limit 5 60 1000 [] = true := by
  decide

/-- Claim C9: the anomaly heuristic returns `false` whenever fewer than
two timestamps are recorded, and with at least two it flags the actor
exactly when the minimum inter-arrival gap is below the 100 ms floor or
the spread between the maximum and minimum gaps exceeds the one-hour
ceiling (timestamps in milliseconds). -/
theorem C9_anomaly_characterisation :
    (∀ times : List ℤ, times.length < 2 → detect_behavior_anomaly times = false) ∧
    (∀ times : List ℤ, ∀ mn mx : ℤ, 2 ≤ times.length →
      (diffs times).min? = some mn → (diffs times).max? = some mx →
      (detect_behavior_anomaly times = true ↔ mn < 100 ∨ mx - mn > 3600000)) := by
  constructor
  · intro times h
    match times with
    | [] => rfl
    | [_] => rfl
    | _ :: _ :: _ => simp at h; omega
  · intro times mn mx hlen hmn hmx
    match times with
    | [] => simp at hlen
    | [_] => simp at hlen
    | a :: b :: rest =>
      simp only [diffs, List.min?, List.max?] at hmn hmx
      injection hmn with hmn
      injection hmx with hmx
      have hd : detect_behavior_anomaly (a :: b :: rest) =
          if List.foldl min (b - a) (diffs (b :: rest)) < 100 then true
          else if List.foldl max (b - a) (diffs (b :: rest)) -
              List.foldl min (b - a) (diffs (b :: rest)) > 3600000 then true
          else false := rfl
      rw [hd, hmn, hmx]
      by_cases h1 : mn < 100
      · simp [h1]
      · by_cases h2 : mx - mn > 3600000
        · simp [h1, h2]
        · simp [h1, h2]

/-- Witness for C9: two requests 50 ms apart are flagged as anomalous. -/
theorem C9_anomaly_characterisation_witness :
    detect_behavior_anomaly [0, 50] = true :=
  (C9_anomaly_characterisation.2 [0, 50] 50 50
    (by decide) (by decide) (by decide)).mpr (Or.inl (by decide))

/-- Claim C10: `check_suspicious_activity` mutates the guard state — for
an actor it does not flag, whenever `current_time` minus the actor
request counter exceeds the 3600-second window (true for every counter
smaller than the current timestamp minus 3600, i.e. for all realistic
counts, since a request count is compared against a timestamp), it
returns not-suspicious and resets both the rate-limit counter and the
failed-attempts counter of that actor to 0. -/
theorem C10_check_resets_counters (maxReq maxFailed : ℕ) (currentTime : ℤ)
    (st : GuardState) (uid : ℕ)
    (h1 : lookup0 st.rate_limits uid ≤ maxReq)
    (h2 : lookup0 st.failed_attempts uid ≤ maxFailed)
    (h3 : currentTime - (lookup0 st.rate_limits uid : ℤ) > RATE_LIMIT_WINDOW) :
    check_suspicious_activity maxReq maxFailed currentTime st uid =
      (false, ⟨setTbl st.rate_limits uid 0, setTbl st.failed_attempts uid 0⟩) ∧
    lookup0 (setTbl st.rate_limits uid 0) uid = 0 ∧
    lookup0 (setTbl st.failed_attempts uid 0) uid = 0 := by
  refine ⟨?_, lookup0_setTbl _ _ _, lookup0_setTbl _ _ _⟩
  unfold check_suspicious_activity
  rw [if_neg (not_lt.mpr h1), if_neg (not_lt.mpr h2), if_pos h3]

/-- Witness for C10: an unflagged actor with counters `(2, 1)` at Unix
time 5000 has both counters erased. -/
theorem C10_check_resets_counters_witness :
    check_suspicious_activity 60 3 5000 ⟨[(7, 2)], [(7, 1)]⟩ 7 =
      (false, ⟨[(7, 0)], [(7, 0)]⟩) ∧
    lookup0 [(7, 0)] 7 = 0 ∧ lookup0 [(7, 0)] 7 = 0 :=
  C10_check_resets_counters 60 3 5000 ⟨[(7, 2)], [(7, 1)]⟩ 7
    (by decide) (by decide) (by decide)
